import Mathlib

/-!
Verification of the prompt-construction core of the Mandala-Art app
(src/app.py), embedded shallowly: the Python dicts become lookup
functions returning `Option String`, the f-string becomes explicit
string concatenation, and the failing dict indexing becomes `none`.
-/

/-- Text of the f-string `base_prompt` before the `{word}` hole
(src/app.py line 259), ending with the opening quote. -/
def base_head : String :=
  "Create a beautiful, symmetrical Mandala artwork inspired by the word \x27"

/-- Text of the f-string `base_prompt` after the `{word}` hole
(src/app.py lines 259-260), starting with the closing quote. -/
def base_tail : String :=
  "\x27. \n    The design should be in black and white line art style, perfect for coloring books."

/-- The `base_prompt` f-string of src/app.py lines 259-260. -/
def base_prompt (word : String) : String :=
  base_head ++ word ++ base_tail

/-- Value of `complexity_prompts["Simple"]` (src/app.py line 264). -/
def cpSimple : String :=
  "Use clean, simple geometric patterns with wide spaces for easy coloring. Minimal detail, bold lines."

/-- Value of `complexity_prompts["Moderate"]` (src/app.py line 265). -/
def cpModerate : String :=
  "Include moderate detail with traditional mandala elements like circles, petals, and geometric shapes."

/-- Value of `complexity_prompts["Detailed"]` (src/app.py line 266). -/
def cpDetailed : String :=
  "Create intricate patterns with fine details, multiple layers, and complex geometric arrangements."

/-- Value of `complexity_prompts["Very Detailed"]` (src/app.py line 267). -/
def cpVeryDetailed : String :=
  "Design an extremely detailed mandala with very fine lines, multiple concentric circles, and elaborate patterns."

/-- Value of `style_prompts["Traditional Mandala"]` (src/app.py line 272). -/
def spTraditional : String :=
  "Follow traditional Sanskrit mandala design principles with circular symmetry, lotus petals, and sacred geometry."

/-- Value of `style_prompts["Geometric Patterns"]` (src/app.py line 273). -/
def spGeometric : String :=
  "Focus on geometric shapes, mathematical patterns, triangles, hexagons, and angular designs."

/-- Value of `style_prompts["Nature-Inspired"]` (src/app.py line 274). -/
def spNature : String :=
  "Incorporate natural elements like flowers, leaves, vines, and organic flowing patterns."

/-- Value of `style_prompts["Abstract Designs"]` (src/app.py line 275). -/
def spAbstract : String :=
  "Create abstract, flowing patterns with curved lines and artistic interpretations."

/-- The `complexity_prompts` dict of src/app.py lines 263-268, as the
lookup it is used for: indexing with a key outside the dict fails
(Python `KeyError`), which the embedding renders as `none`. -/
def complexity_prompts (complexity : String) : Option String :=
  if complexity = "Simple" then some cpSimple
  else if complexity = "Moderate" then some cpModerate
  else if complexity = "Detailed" then some cpDetailed
  else if complexity = "Very Detailed" then some cpVeryDetailed
  else none

/-- The `style_prompts` dict of src/app.py lines 271-276, as a lookup. -/
def style_prompts (style : String) : Option String :=
  if style = "Traditional Mandala" then some spTraditional
  else if style = "Geometric Patterns" then some spGeometric
  else if style = "Nature-Inspired" then some spNature
  else if style = "Abstract Designs" then some spAbstract
  else none

/-- The `technical_specs` triple-quoted string of src/app.py lines 279-287. -/
def technical_specs : String :=
  "\n    IMPORTANT: The artwork must be:\n    - Pure black lines on white background\n    - High contrast for clear printing\n    - Perfectly symmetrical (8-fold or 12-fold radial symmetry)\n    - No shading, gradients, or gray tones\n    - Clean, printable line art style\n    - Suitable for coloring with pens, pencils, or markers\n    "

/-- The `full_prompt` f-string of src/app.py line 290, given the two
looked-up clause texts. -/
def full_prompt (word cp sp : String) : String :=
  base_prompt word ++ " " ++ cp ++ " " ++ sp ++ " " ++ technical_specs

/-- `create_mandala_prompt` of src/app.py lines 255-292: look up the
complexity clause and the style clause, then join base sentence,
clauses and technical block.  A key outside either dict makes the
Python function raise; the embedding returns `none` there. -/
def create_mandala_prompt (word complexity style : String) : Option String :=
  match complexity_prompts complexity, style_prompts style with
  | some cp, some sp => some (full_prompt word cp sp)
  | _, _ => none

/-- The keys of `complexity_prompts` (the four-value enumeration). -/
def complexityKeys : List String :=
  ["Simple", "Moderate", "Detailed", "Very Detailed"]

/-- The keys of `style_prompts` (the four-value enumeration). -/
def styleKeys : List String :=
  ["Traditional Mandala", "Geometric Patterns", "Nature-Inspired", "Abstract Designs"]

/-- The clause texts of `complexity_prompts`. -/
def complexityClauses : List String :=
  [cpSimple, cpModerate, cpDetailed, cpVeryDetailed]

/-- The clause texts of `style_prompts`. -/
def styleClauses : List String :=
  [spTraditional, spGeometric, spNature, spAbstract]

/-- All eight clause texts of the two dicts. -/
def allClauses : List String :=
  complexityClauses ++ styleClauses

/-- Substring occurrence, the meaning of Python `needle in hay`. -/
def occurs (needle hay : String) : Prop :=
  needle.data <:+: hay.data

instance (n h : String) : Decidable (occurs n h) :=
  List.decidableInfix n.data h.data

/-- When both lookups hit, `create_mandala_prompt` returns the joined
prompt. -/
lemma create_eq_some {word c s cp sp : String}
    (hc : complexity_prompts c = some cp) (hs : style_prompts s = some sp) :
    create_mandala_prompt word c s = some (full_prompt word cp sp) := by
  unfold create_mandala_prompt
  rw [hc, hs]

/-- When either lookup misses, `create_mandala_prompt` fails. -/
lemma create_eq_none {word c s : String}
    (h : complexity_prompts c = none ∨ style_prompts s = none) :
    create_mandala_prompt word c s = none := by
  unfold create_mandala_prompt
  rcases h with h | h
  · rw [h]
  · rw [h]
    cases complexity_prompts c <;> rfl

/-- Inversion: a successful call comes from two successful lookups. -/
lemma create_some_inv {word c s out : String}
    (h : create_mandala_prompt word c s = some out) :
    ∃ cp sp, complexity_prompts c = some cp ∧ style_prompts s = some sp ∧
      out = full_prompt word cp sp := by
  unfold create_mandala_prompt at h
  cases hc : complexity_prompts c <;> cases hs : style_prompts s <;>
    rw [hc, hs] at h <;> simp only [Option.some.injEq, reduceCtorEq] at h
  exact ⟨_, _, rfl, rfl, h.symm⟩

/-- The character data of the full prompt, fully re-associated. -/
lemma data_full (word cp sp : String) :
    (full_prompt word cp sp).data =
      base_head.data ++ (word.data ++ (base_tail.data ++ ((" ").data ++
        (cp.data ++ ((" ").data ++ (sp.data ++ ((" ").data ++ technical_specs.data))))))) := by
  simp [full_prompt, base_prompt, String.data_append, List.append_assoc]

/-- The subject occurs in the full prompt. -/
lemma occurs_full_subject (word cp sp : String) :
    occurs word (full_prompt word cp sp) := by
  unfold occurs
  rw [data_full]
  exact ⟨base_head.data,
    base_tail.data ++ (" ").data ++ cp.data ++ (" ").data ++ sp.data ++ (" ").data ++
      technical_specs.data,
    by simp [List.append_assoc]⟩

/-- The complexity clause occurs in the full prompt. -/
lemma occurs_full_cp (word cp sp : String) :
    occurs cp (full_prompt word cp sp) := by
  unfold occurs
  rw [data_full]
  exact ⟨base_head.data ++ word.data ++ base_tail.data ++ (" ").data,
    (" ").data ++ sp.data ++ (" ").data ++ technical_specs.data,
    by simp [List.append_assoc]⟩

/-- The style clause occurs in the full prompt. -/
lemma occurs_full_sp (word cp sp : String) :
    occurs sp (full_prompt word cp sp) := by
  unfold occurs
  rw [data_full]
  exact ⟨base_head.data ++ word.data ++ base_tail.data ++ (" ").data ++ cp.data ++ (" ").data,
    (" ").data ++ technical_specs.data,
    by simp [List.append_assoc]⟩

/-- The technical block occurs in the full prompt. -/
lemma occurs_full_tech (word cp sp : String) :
    occurs technical_specs (full_prompt word cp sp) := by
  unfold occurs
  rw [data_full]
  exact ⟨base_head.data ++ word.data ++ base_tail.data ++ (" ").data ++ cp.data ++ (" ").data ++
    sp.data ++ (" ").data, [], by simp [List.append_assoc]⟩

/-- C1: for every valid triple (non-empty subject, complexity and style
from their four-value enumerations), `create_mandala_prompt` is
deterministic: identical inputs give identical outputs. -/
theorem C1_prompt_deterministic (w c s w2 c2 s2 : String)
    (_hw : w ≠ "") (_hc : c ∈ complexityKeys) (_hs : s ∈ styleKeys)
    (hew : w = w2) (hec : c = c2) (hes : s = s2) :
    create_mandala_prompt w c s = create_mandala_prompt w2 c2 s2 := by
  rw [hew, hec, hes]

theorem C1_prompt_deterministic_witness :
    create_mandala_prompt "peace" "Simple" "Traditional Mandala" =
      create_mandala_prompt "peace" "Simple" "Traditional Mandala" :=
  C1_prompt_deterministic "peace" "Simple" "Traditional Mandala"
    "peace" "Simple" "Traditional Mandala" (by decide) (by decide) (by decide) rfl rfl rfl

/-- C2: for every valid triple, the output is the in-order join of the
base sentence embedding the subject, the looked-up complexity clause,
the looked-up style clause, and the fixed technical block. -/
theorem C2_four_parts_in_order (w c s cp sp : String)
    (hc : complexity_prompts c = some cp) (hs : style_prompts s = some sp) :
    ∃ out, create_mandala_prompt w c s = some out ∧
      out = base_prompt w ++ " " ++ cp ++ " " ++ sp ++ " " ++ technical_specs ∧
      base_prompt w = base_head ++ w ++ base_tail :=
  ⟨full_prompt w cp sp, create_eq_some hc hs, rfl, rfl⟩

theorem C2_four_parts_in_order_witness :
    ∃ out, create_mandala_prompt "peace" "Simple" "Traditional Mandala" = some out ∧
      out = base_prompt "peace" ++ " " ++ cpSimple ++ " " ++ spTraditional ++ " " ++
        technical_specs ∧
      base_prompt "peace" = base_head ++ "peace" ++ base_tail :=
  C2_four_parts_in_order "peace" "Simple" "Traditional Mandala" cpSimple spTraditional rfl rfl

/-- C3: every successful output of the prompt builder contains the
subject text verbatim as a substring. -/
theorem C3_subject_verbatim (w c s out : String)
    (h : create_mandala_prompt w c s = some out) :
    occurs w out := by
  obtain ⟨cp, sp, _, _, rfl⟩ := create_some_inv h
  exact occurs_full_subject w cp sp

theorem C3_subject_verbatim_witness :
    occurs "peace" (full_prompt "peace" cpSimple spTraditional) :=
  C3_subject_verbatim "peace" "Simple" "Traditional Mandala"
    (full_prompt "peace" cpSimple spTraditional) (create_eq_some rfl rfl)

/-- C5: every successful output of the prompt builder contains the fixed
technical-constraints block in full, whatever the inputs were. -/
theorem C5_technical_block_always (w c s out : String)
    (h : create_mandala_prompt w c s = some out) :
    occurs technical_specs out := by
  obtain ⟨cp, sp, _, _, rfl⟩ := create_some_inv h
  exact occurs_full_tech w cp sp

theorem C5_technical_block_always_witness :
    occurs technical_specs (full_prompt "peace" cpSimple spTraditional) :=
  C5_technical_block_always "peace" "Simple" "Traditional Mandala"
    (full_prompt "peace" cpSimple spTraditional) (create_eq_some rfl rfl)

/-- A key outside `complexityKeys` makes the complexity lookup miss. -/
lemma complexity_prompts_eq_none {c : String} (h : c ∉ complexityKeys) :
    complexity_prompts c = none := by
  simp only [complexityKeys, List.mem_cons, List.not_mem_nil, or_false, not_or] at h
  unfold complexity_prompts
  rw [if_neg h.1, if_neg h.2.1, if_neg h.2.2.1, if_neg h.2.2.2]

/-- A key outside `styleKeys` makes the style lookup miss. -/
lemma style_prompts_eq_none {s : String} (h : s ∉ styleKeys) :
    style_prompts s = none := by
  simp only [styleKeys, List.mem_cons, List.not_mem_nil, or_false, not_or] at h
  unfold style_prompts
  rw [if_neg h.1, if_neg h.2.1, if_neg h.2.2.1, if_neg h.2.2.2]

/-- The complexity lookup misses exactly off the four keys. -/
lemma complexity_none_iff {c : String} :
    complexity_prompts c = none ↔ c ∉ complexityKeys := by
  constructor
  · intro h hmem
    rcases (by simpa [complexityKeys] using hmem :
        c = "Simple" ∨ c = "Moderate" ∨ c = "Detailed" ∨ c = "Very Detailed") with
      rfl | rfl | rfl | rfl <;> exact absurd h (by decide)
  · exact complexity_prompts_eq_none

/-- The style lookup misses exactly off the four keys. -/
lemma style_none_iff {s : String} :
    style_prompts s = none ↔ s ∉ styleKeys := by
  constructor
  · intro h hmem
    rcases (by simpa [styleKeys] using hmem :
        s = "Traditional Mandala" ∨ s = "Geometric Patterns" ∨
        s = "Nature-Inspired" ∨ s = "Abstract Designs") with
      rfl | rfl | rfl | rfl <;> exact absurd h (by decide)
  · exact style_prompts_eq_none

/-- C6: calling the prompt builder with a complexity or style outside its
fixed four-value set fails (the failed dict lookup, InvalidOption in the
spec) and produces no output string. -/
theorem C6_invalid_enum_fails (w c s : String)
    (h : c ∉ complexityKeys ∨ s ∉ styleKeys) :
    create_mandala_prompt w c s = none := by
  rcases h with h | h
  · exact create_eq_none (Or.inl (complexity_prompts_eq_none h))
  · exact create_eq_none (Or.inr (style_prompts_eq_none h))

theorem C6_invalid_enum_fails_witness :
    create_mandala_prompt "peace" "Extreme" "Traditional Mandala" = none :=
  C6_invalid_enum_fails "peace" "Extreme" "Traditional Mandala" (Or.inl (by decide))

lemma cLookup_simple : complexity_prompts "Simple" = some cpSimple := rfl

lemma cLookup_moderate : complexity_prompts "Moderate" = some cpModerate := rfl

lemma cLookup_detailed : complexity_prompts "Detailed" = some cpDetailed := rfl

lemma cLookup_very : complexity_prompts "Very Detailed" = some cpVeryDetailed := rfl

lemma sLookup_traditional : style_prompts "Traditional Mandala" = some spTraditional := rfl

lemma sLookup_geometric : style_prompts "Geometric Patterns" = some spGeometric := rfl

lemma sLookup_nature : style_prompts "Nature-Inspired" = some spNature := rfl

lemma sLookup_abstract : style_prompts "Abstract Designs" = some spAbstract := rfl

/-- The quote character wrapped around the subject in the base f-string. -/
def quoteChar : Char := '\x27'

/-- The text of `base_head` without its final quote character. -/
def base_head_core : String :=
  "Create a beautiful, symmetrical Mandala artwork inspired by the word "

/-- The text of `base_tail` without its leading quote character. -/
def base_tail_core : String :=
  ". \n    The design should be in black and white line art style, perfect for coloring books."

lemma base_head_data : base_head.data = base_head_core.data ++ [quoteChar] := by decide

lemma base_tail_data : base_tail.data = quoteChar :: base_tail_core.data := by decide

/-- A key in `complexityKeys` makes the complexity lookup hit. -/
lemma complexity_mem_some {c : String} (h : c ∈ complexityKeys) :
    ∃ cp, complexity_prompts c = some cp := by
  rcases (by simpa [complexityKeys] using h :
      c = "Simple" ∨ c = "Moderate" ∨ c = "Detailed" ∨ c = "Very Detailed") with
    rfl | rfl | rfl | rfl
  exacts [⟨cpSimple, rfl⟩, ⟨cpModerate, rfl⟩, ⟨cpDetailed, rfl⟩, ⟨cpVeryDetailed, rfl⟩]

/-- A key in `styleKeys` makes the style lookup hit. -/
lemma style_mem_some {s : String} (h : s ∈ styleKeys) :
    ∃ sp, style_prompts s = some sp := by
  rcases (by simpa [styleKeys] using h :
      s = "Traditional Mandala" ∨ s = "Geometric Patterns" ∨
      s = "Nature-Inspired" ∨ s = "Abstract Designs") with
    rfl | rfl | rfl | rfl
  exacts [⟨spTraditional, rfl⟩, ⟨spGeometric, rfl⟩, ⟨spNature, rfl⟩, ⟨spAbstract, rfl⟩]

/-- C10: the builder never fails because of the subject: for every
complexity and style in the mappings and every subject string, the
empty string included, it returns an output with the subject embedded
between the two quote characters; it fails exactly when complexity or
style is outside its mapping. -/
theorem C10_subject_never_fails (w c s : String) :
    (create_mandala_prompt w c s = none ↔ (c ∉ complexityKeys ∨ s ∉ styleKeys)) ∧
    (∀ cp sp, complexity_prompts c = some cp → style_prompts s = some sp →
      ∃ out, create_mandala_prompt w c s = some out ∧
        ∃ pre suf, out.data = pre ++ [quoteChar] ++ w.data ++ [quoteChar] ++ suf) := by
  constructor
  · constructor
    · intro h
      by_contra hk
      simp only [not_or, not_not] at hk
      obtain ⟨cp, hc⟩ := complexity_mem_some hk.1
      obtain ⟨sp, hs⟩ := style_mem_some hk.2
      rw [create_eq_some hc hs] at h
      exact Option.noConfusion h
    · intro h
      rcases h with h | h
      · exact create_eq_none (Or.inl (complexity_prompts_eq_none h))
      · exact create_eq_none (Or.inr (style_prompts_eq_none h))
  · intro cp sp hc hs
    refine ⟨full_prompt w cp sp, create_eq_some hc hs, base_head_core.data,
      base_tail_core.data ++ (" ").data ++ cp.data ++ (" ").data ++ sp.data ++ (" ").data ++
        technical_specs.data, ?_⟩
    rw [data_full, base_head_data, base_tail_data]
    simp [List.append_assoc]

theorem C10_subject_never_fails_witness :
    (create_mandala_prompt "" "Simple" "Traditional Mandala" = none ↔
      ("Simple" ∉ complexityKeys ∨ "Traditional Mandala" ∉ styleKeys)) ∧
    (∃ out, create_mandala_prompt "" "Simple" "Traditional Mandala" = some out ∧
      ∃ pre suf, out.data = pre ++ [quoteChar] ++ ("").data ++ [quoteChar] ++ suf) :=
  ⟨(C10_subject_never_fails "" "Simple" "Traditional Mandala").1,
    (C10_subject_never_fails "" "Simple" "Traditional Mandala").2 cpSimple spTraditional rfl rfl⟩

/-- The disabling condition of the generate button, src/app.py line 133:
`disabled=not (api_key and word)`; a Python string is truthy iff
non-empty. -/
def generate_button_disabled (api_key word : String) : Bool :=
  !(api_key != "" && word != "")

/-- The trigger: a disabled Streamlit button cannot fire, so the button
value is true only when it was pressed while enabled. -/
def trigger_fired (pressed : Bool) (api_key word : String) : Bool :=
  pressed && !(generate_button_disabled api_key word)

/-- The guard of the generation branch, src/app.py line 140:
`if generate_button and api_key and word`. -/
def generation_dispatched (button : Bool) (api_key word : String) : Bool :=
  button && api_key != "" && word != ""

/-- C9: a generation attempt is never dispatched with a missing subject
or credential: the branch runs only if the trigger fired, the trigger
is disabled until both are non-empty, and the branch guard adds nothing
beyond the trigger condition (no separate runtime emptiness check). -/
theorem C9_no_empty_dispatch (pressed : Bool) (api word : String) :
    (generation_dispatched (trigger_fired pressed api word) api word = true →
      api ≠ "" ∧ word ≠ "") ∧
    generation_dispatched (trigger_fired pressed api word) api word =
      trigger_fired pressed api word := by
  constructor
  · intro h
    constructor
    · intro ha
      subst ha
      simp [generation_dispatched] at h
    · intro hw
      subst hw
      simp [generation_dispatched] at h
  · cases hA : (api != "") <;> cases hW : (word != "") <;> cases pressed <;>
      simp [generation_dispatched, trigger_fired, generate_button_disabled, hA, hW]

theorem C9_no_empty_dispatch_witness :
    ("k" ≠ "" ∧ "peace" ≠ "") ∧
    generation_dispatched (trigger_fired true "k" "peace") "k" "peace" =
      trigger_fired true "k" "peace" :=
  ⟨(C9_no_empty_dispatch true "k" "peace").1 (by decide),
    (C9_no_empty_dispatch true "k" "peace").2⟩

/-- The image-size dispatch of src/app.py lines 149-155: Python tests
`"1792x1024" in size` and `"1024x1792" in size` (substring tests), with
a default of "1024x1024". -/
def image_size (size : String) : String :=
  if occurs "1792x1024" size then "1792x1024"
  else if occurs "1024x1792" size then "1024x1792"
  else "1024x1024"

/-- C8 counterexample: for a complexity outside the mapping the builder
does not fall back to any default; the lookup fails and no prompt
string is produced. -/
theorem C8_counterexample :
    create_mandala_prompt "peace" "Extreme" "Traditional Mandala" = none :=
  create_eq_none (Or.inl (by decide))

/-- C8 as amended: the size dispatch does fall back silently, the
complexity lookup does not: every size string in which neither
recognised dimension pair occurs is dispatched as the default
"1024x1024", while a complexity outside the mapping makes the prompt
builder fail with no output. -/
theorem C8_size_fallback_only (size w c s : String)
    (h1 : ¬ occurs "1792x1024" size) (h2 : ¬ occurs "1024x1792" size)
    (hc : c ∉ complexityKeys) :
    image_size size = "1024x1024" ∧ create_mandala_prompt w c s = none := by
  constructor
  · unfold image_size
    rw [if_neg h1, if_neg h2]
  · exact create_eq_none (Or.inl (complexity_prompts_eq_none hc))

theorem C8_size_fallback_only_witness :
    image_size "huge" = "1024x1024" ∧
    create_mandala_prompt "peace" "Extreme2" "Traditional Mandala" = none :=
  C8_size_fallback_only "huge" "peace" "Extreme2" "Traditional Mandala"
    (by decide) (by decide) (by decide)

/-- C7: the "peace"/Simple/Traditional example contains the subject,
both requested clauses and the technical block; and for a fixed subject
and style, switching the complexity from Simple to Very Detailed swaps
only that clause, all surrounding text byte-identical. -/
theorem C7_example_and_locality :
    (∃ out, create_mandala_prompt "peace" "Simple" "Traditional Mandala" = some out ∧
      occurs "peace" out ∧ occurs cpSimple out ∧ occurs spTraditional out ∧
      occurs technical_specs out) ∧
    (∀ w s sp, style_prompts s = some sp →
      ∃ A B, create_mandala_prompt w "Simple" s = some (A ++ cpSimple ++ B) ∧
        create_mandala_prompt w "Very Detailed" s = some (A ++ cpVeryDetailed ++ B)) := by
  constructor
  · exact ⟨full_prompt "peace" cpSimple spTraditional, create_eq_some rfl rfl,
      occurs_full_subject "peace" cpSimple spTraditional,
      occurs_full_cp "peace" cpSimple spTraditional,
      occurs_full_sp "peace" cpSimple spTraditional,
      occurs_full_tech "peace" cpSimple spTraditional⟩
  · intro w s sp hs
    refine ⟨base_prompt w ++ " ", " " ++ sp ++ " " ++ technical_specs, ?_, ?_⟩
    · rw [create_eq_some cLookup_simple hs]
      simp [full_prompt, String.append_assoc]
    · rw [create_eq_some cLookup_very hs]
      simp [full_prompt, String.append_assoc]

theorem C7_example_and_locality_witness :
    ∃ A B, create_mandala_prompt "x" "Simple" "Traditional Mandala" =
        some (A ++ cpSimple ++ B) ∧
      create_mandala_prompt "x" "Very Detailed" "Traditional Mandala" =
        some (A ++ cpVeryDetailed ++ B) :=
  C7_example_and_locality.2 "x" "Traditional Mandala" spTraditional rfl

/-- Splitting an infix of a concatenation: it lies in the left part, in
the right part, or straddles the junction as a non-empty suffix of the
left glued to a non-empty prefix of the right. -/
lemma split_of_infix_append {α : Type} {t u v : List α} (h : t <:+: u ++ v) :
    t <:+: u ∨ t <:+: v ∨
      ∃ t₁ t₂, t = t₁ ++ t₂ ∧ t₁ ≠ [] ∧ t₂ ≠ [] ∧ t₁ <:+ u ∧ t₂ <+: v := by
  obtain ⟨p, s, hps⟩ := h
  rw [List.append_assoc] at hps
  rcases List.append_eq_append_iff.mp hps with ⟨a, ha, hb⟩ | ⟨c, _, hd⟩
  · rcases List.append_eq_append_iff.mp hb with ⟨b, hab, _⟩ | ⟨b, htb, hvb⟩
    · left
      exact ⟨p, b, by rw [ha, hab, List.append_assoc]⟩
    · rcases eq_or_ne a [] with rfl | hA
      · right; left
        refine ⟨[], s, ?_⟩
        simp only [List.nil_append] at htb ⊢
        rw [htb]
        exact hvb.symm
      · rcases eq_or_ne b [] with rfl | hB
        · left
          refine ⟨p, [], ?_⟩
          rw [List.append_nil] at htb
          rw [List.append_nil, htb]
          exact ha.symm
        · right; right
          exact ⟨a, b, htb, hA, hB, ⟨p, ha.symm⟩, ⟨s, hvb.symm⟩⟩
  · right; left
    exact ⟨c, s, by rw [hd, List.append_assoc]⟩

/-- A non-empty prefix contains the head of the larger list. -/
lemma mem_of_ne_nil_pre {l v : List Char} {q : Char}
    (h : l <+: v) (hne : l ≠ []) (hv : v.head? = some q) : q ∈ l := by
  cases l with
  | nil => exact absurd rfl hne
  | cons a r =>
    obtain ⟨tl, rfl⟩ := h
    rw [List.cons_append, List.head?_cons] at hv
    obtain rfl := Option.some.inj hv
    exact List.mem_cons_self a r

/-- A non-empty suffix contains the last element of the larger list. -/
lemma mem_of_ne_nil_suf {l u : List Char} {q : Char}
    (h : l <:+ u) (hne : l ≠ []) (hu : u.getLast? = some q) : q ∈ l := by
  have h2 : l.reverse <+: u.reverse := List.reverse_prefix.mpr h
  have hne2 : l.reverse ≠ [] := fun hx => hne (List.reverse_eq_nil_iff.mp hx)
  have hv : u.reverse.head? = some q := by rw [List.head?_reverse]; exact hu
  exact List.mem_reverse.mp (mem_of_ne_nil_pre h2 hne2 hv)

/-- Everything after the subject in the full prompt: closing quote and
base-sentence remainder, then the clauses and the technical block. -/
def S_part (cp sp : String) : String :=
  base_tail ++ " " ++ cp ++ " " ++ sp ++ " " ++ technical_specs

/-- The full prompt is the fixed head, the subject, then `S_part`. -/
lemma full_decomp (w cp sp : String) :
    (full_prompt w cp sp).data = base_head.data ++ (w.data ++ (S_part cp sp).data) := by
  simp [full_prompt, base_prompt, S_part, String.data_append, List.append_assoc]

/-- The fixed head ends with the quote character. -/
lemma base_head_last : base_head.data.getLast? = some quoteChar := by decide

/-- Whatever the clauses, `S_part` starts with the quote character. -/
lemma S_part_head (cp sp : String) : (S_part cp sp).data.head? = some quoteChar := by
  have h : (S_part cp sp).data = quoteChar ::
      (base_tail_core.data ++ ((" ").data ++ (cp.data ++ ((" ").data ++
        (sp.data ++ ((" ").data ++ technical_specs.data)))))) := by
    simp [S_part, String.data_append, base_tail_data, List.append_assoc]
  rw [h, List.head?_cons]

/-- A quote-free text that occurs neither in the subject, nor in the
fixed head, nor in `S_part`, does not occur in the full prompt. -/
lemma not_occurs_full {w t cp sp : String}
    (hq : quoteChar ∉ t.data)
    (hw : ¬ occurs t w)
    (hP : ¬ t.data <:+: base_head.data)
    (hS : ¬ t.data <:+: (S_part cp sp).data) :
    ¬ occurs t (full_prompt w cp sp) := by
  intro h
  rw [occurs, full_decomp] at h
  rcases split_of_infix_append h with h1 | h2 | ⟨t₁, t₂, het, h1ne, _, hsuf, _⟩
  · exact hP h1
  · rcases split_of_infix_append h2 with g1 | g2 | ⟨t₁, t₂, het, _, g2ne, _, gpre⟩
    · exact hw g1
    · exact hS g2
    · refine hq ?_
      rw [het, List.mem_append]
      exact Or.inr (mem_of_ne_nil_pre gpre g2ne (S_part_head cp sp))
  · refine hq ?_
    rw [het, List.mem_append]
    exact Or.inl (mem_of_ne_nil_suf hsuf h1ne base_head_last)

/-- Enumerating a successful complexity lookup. -/
lemma complexity_cases {c cp : String} (h : complexity_prompts c = some cp) :
    (c = "Simple" ∧ cp = cpSimple) ∨ (c = "Moderate" ∧ cp = cpModerate) ∨
    (c = "Detailed" ∧ cp = cpDetailed) ∨ (c = "Very Detailed" ∧ cp = cpVeryDetailed) := by
  unfold complexity_prompts at h
  split_ifs at h with h1 h2 h3 h4
  · exact Or.inl ⟨h1, (Option.some.inj h).symm⟩
  · exact Or.inr (Or.inl ⟨h2, (Option.some.inj h).symm⟩)
  · exact Or.inr (Or.inr (Or.inl ⟨h3, (Option.some.inj h).symm⟩))
  · exact Or.inr (Or.inr (Or.inr ⟨h4, (Option.some.inj h).symm⟩))

/-- Enumerating a successful style lookup. -/
lemma style_cases {s sp : String} (h : style_prompts s = some sp) :
    (s = "Traditional Mandala" ∧ sp = spTraditional) ∨
    (s = "Geometric Patterns" ∧ sp = spGeometric) ∨
    (s = "Nature-Inspired" ∧ sp = spNature) ∨
    (s = "Abstract Designs" ∧ sp = spAbstract) := by
  unfold style_prompts at h
  split_ifs at h with h1 h2 h3 h4
  · exact Or.inl ⟨h1, (Option.some.inj h).symm⟩
  · exact Or.inr (Or.inl ⟨h2, (Option.some.inj h).symm⟩)
  · exact Or.inr (Or.inr (Or.inl ⟨h3, (Option.some.inj h).symm⟩))
  · exact Or.inr (Or.inr (Or.inr ⟨h4, (Option.some.inj h).symm⟩))

set_option maxRecDepth 100000 in
/-- No clause text contains a quote character, and none occurs inside
the fixed head of the base sentence. -/
lemma clause_no_quote : ∀ t ∈ allClauses,
    quoteChar ∉ t.data ∧ ¬ t.data <:+: base_head.data := by decide

set_option maxRecDepth 100000 in
/-- Complexity clause texts and style clause texts are pairwise distinct. -/
lemma cs_disjoint : ∀ t ∈ complexityClauses, ∀ u ∈ styleClauses, t ≠ u := by decide

set_option maxRecDepth 100000 in
set_option maxHeartbeats 4000000 in
lemma no_cross : ∀ t ∈ allClauses, ∀ cp ∈ complexityClauses, ∀ sp ∈ styleClauses,
    t ≠ cp → t ≠ sp → ¬ t.data <:+: (S_part cp sp).data := by decide

/-- For clauses drawn from the mappings, the full prompt contains the two
requested clauses and no clause text of any other mapping entry, as
long as the subject itself is free of clause texts. -/
lemma full_clause_occurrences {w cp sp : String}
    (hcpm : cp ∈ complexityClauses) (hspm : sp ∈ styleClauses)
    (hfree : ∀ t ∈ allClauses, ¬ occurs t w) :
    occurs cp (full_prompt w cp sp) ∧ occurs sp (full_prompt w cp sp) ∧
    (∀ c2 t2, complexity_prompts c2 = some t2 → t2 ≠ cp →
      ¬ occurs t2 (full_prompt w cp sp)) ∧
    (∀ s2 t2, style_prompts s2 = some t2 → t2 ≠ sp →
      ¬ occurs t2 (full_prompt w cp sp)) := by
  refine ⟨occurs_full_cp w cp sp, occurs_full_sp w cp sp, ?_, ?_⟩
  · intro c2 t2 hl2 hne2
    have ht2m : t2 ∈ complexityClauses := by
      rcases complexity_cases hl2 with ⟨_, rfl⟩ | ⟨_, rfl⟩ | ⟨_, rfl⟩ | ⟨_, rfl⟩ <;>
        simp [complexityClauses]
    have ht2a : t2 ∈ allClauses := by
      rw [allClauses]
      exact List.mem_append.mpr (Or.inl ht2m)
    exact not_occurs_full ((clause_no_quote t2 ht2a).1) (hfree t2 ht2a)
      ((clause_no_quote t2 ht2a).2)
      (no_cross t2 ht2a cp hcpm sp hspm hne2 (cs_disjoint t2 ht2m sp hspm))
  · intro s2 t2 hl2 hne2
    have ht2m : t2 ∈ styleClauses := by
      rcases style_cases hl2 with ⟨_, rfl⟩ | ⟨_, rfl⟩ | ⟨_, rfl⟩ | ⟨_, rfl⟩ <;>
        simp [styleClauses]
    have ht2a : t2 ∈ allClauses := by
      rw [allClauses]
      exact List.mem_append.mpr (Or.inr ht2m)
    exact not_occurs_full ((clause_no_quote t2 ht2a).1) (hfree t2 ht2a)
      ((clause_no_quote t2 ht2a).2)
      (no_cross t2 ht2a cp hcpm sp hspm ((cs_disjoint cp hcpm t2 ht2m).symm) hne2)

/-- C4 as amended: for a subject that does not itself contain any clause
text of the two mappings, the output contains the clause looked up for
the requested complexity and the one for the requested style, and the
clause text of no other mapping entry occurs in it. -/
theorem C4_exactly_one_clause (w c s cp sp : String)
    (hc : complexity_prompts c = some cp) (hs : style_prompts s = some sp)
    (hfree : ∀ t ∈ allClauses, ¬ occurs t w) :
    ∃ out, create_mandala_prompt w c s = some out ∧
      occurs cp out ∧ occurs sp out ∧
      (∀ c2 t2, complexity_prompts c2 = some t2 → t2 ≠ cp → ¬ occurs t2 out) ∧
      (∀ s2 t2, style_prompts s2 = some t2 → t2 ≠ sp → ¬ occurs t2 out) := by
  have hcpm : cp ∈ complexityClauses := by
    rcases complexity_cases hc with ⟨_, rfl⟩ | ⟨_, rfl⟩ | ⟨_, rfl⟩ | ⟨_, rfl⟩ <;>
      simp [complexityClauses]
  have hspm : sp ∈ styleClauses := by
    rcases style_cases hs with ⟨_, rfl⟩ | ⟨_, rfl⟩ | ⟨_, rfl⟩ | ⟨_, rfl⟩ <;>
      simp [styleClauses]
  exact ⟨full_prompt w cp sp, create_eq_some hc hs,
    full_clause_occurrences hcpm hspm hfree⟩

theorem C4_exactly_one_clause_witness :
    ∃ out, create_mandala_prompt "peace" "Simple" "Traditional Mandala" = some out ∧
      occurs cpSimple out ∧ occurs spTraditional out ∧
      (∀ c2 t2, complexity_prompts c2 = some t2 → t2 ≠ cpSimple → ¬ occurs t2 out) ∧
      (∀ s2 t2, style_prompts s2 = some t2 → t2 ≠ spTraditional → ¬ occurs t2 out) :=
  C4_exactly_one_clause "peace" "Simple" "Traditional Mandala" cpSimple spTraditional
    cLookup_simple sLookup_traditional (by decide)

/-- C4 counterexample: taking the Simple clause text itself as the
(non-empty) subject while requesting Moderate complexity puts a clause
of a non-requested mapping entry into the output, so the claim fails as
stated for such subjects. -/
theorem C4_counterexample :
    cpSimple ≠ "" ∧ cpSimple ≠ cpModerate ∧
    ∃ out, create_mandala_prompt cpSimple "Moderate" "Traditional Mandala" = some out ∧
      occurs cpSimple out :=
  ⟨by decide, by decide, full_prompt cpSimple cpModerate spTraditional,
    create_eq_some cLookup_moderate sLookup_traditional,
    occurs_full_subject cpSimple cpModerate spTraditional⟩
